import Mathlib

/-!
Verification of the document acquisition and ingestion pipeline
(`backend/proxy_manager.py`, `backend/database.py`, `backend/scraper.py`).
Python code is shallowly embedded: network and randomness are oracles,
SQLite values and comparisons are modelled explicitly, and the stateful
objects become explicit state passing.
-/

namespace AIHoghoghi

/-! ## Fetch strategy chain (`backend/proxy_manager.py`) -/

/-- The four fetch strategies, in the order `fetch_with_rotation` tries them
(`proxy_manager.py` lines 61-66).  `direct` is the Direct strategy,
`iranian_dns` the DNS-rotated one, `cors_proxy` the Proxy-relay one and
`archive` the Archive-mirror one. -/
inductive Method
  | direct
  | iranian_dns
  | cors_proxy
  | archive
deriving DecidableEq, Repr

/-- The Python string name of each strategy, as reported in the
`"method"` field of the result dict. -/
def methodName : Method → String
  | .direct => "direct"
  | .iranian_dns => "iranian_dns"
  | .cors_proxy => "cors_proxy"
  | .archive => "archive"

/-- The order in which `fetch_with_rotation` tries the strategies. -/
def methodsOrder : List Method := [.direct, .iranian_dns, .cors_proxy, .archive]

/-- Outcome of one strategy invocation `await method_func(url)`:
either a dict `{"content": ..., "status_code": ...}` or a raised exception
(any `Exception`, including the `IndexError` raised by `random.choice` on an
empty candidate list). -/
inductive FetchOutcome
  | ok (content : String) (status : Nat)
  | exn
deriving DecidableEq, Repr

/-- Per-strategy counters kept in `self.proxy_stats` (`_update_proxy_stats`). -/
structure MethodStats where
  success : Nat := 0
  failed : Nat := 0
deriving DecidableEq, Repr

/-- The whole `proxy_stats` map.  The Python dict starts empty and
initializes an entry to `{"success": 0, "failed": 0}` on first update;
modelling every entry as present with zero counters is observationally the
same for the counter values. -/
structure ProxyStats where
  direct : MethodStats := {}
  iranian_dns : MethodStats := {}
  cors_proxy : MethodStats := {}
  archive : MethodStats := {}
deriving DecidableEq, Repr

def getStats (s : ProxyStats) : Method → MethodStats
  | .direct => s.direct
  | .iranian_dns => s.iranian_dns
  | .cors_proxy => s.cors_proxy
  | .archive => s.archive

/-- `_update_proxy_stats(method, success)` (`proxy_manager.py` 260-268). -/
def updateProxyStats (s : ProxyStats) (m : Method) (succ : Bool) : ProxyStats :=
  let bump := fun (st : MethodStats) =>
    if succ then { st with success := st.success + 1 } else { st with failed := st.failed + 1 }
  match m with
  | .direct => { s with direct := bump s.direct }
  | .iranian_dns => { s with iranian_dns := bump s.iranian_dns }
  | .cors_proxy => { s with cors_proxy := bump s.cors_proxy }
  | .archive => { s with archive := bump s.archive }

/-- Ghost instrumentation: how many times each strategy's `method_func` was
invoked during a fetch.  Not part of the Python state; used only to state
counter-bookkeeping properties. -/
structure AttemptCount where
  direct : Nat := 0
  iranian_dns : Nat := 0
  cors_proxy : Nat := 0
  archive : Nat := 0
deriving DecidableEq, Repr

def getAttempts (a : AttemptCount) : Method → Nat
  | .direct => a.direct
  | .iranian_dns => a.iranian_dns
  | .cors_proxy => a.cors_proxy
  | .archive => a.archive

def bumpAttempt (a : AttemptCount) : Method → AttemptCount
  | .direct => { a with direct := a.direct + 1 }
  | .iranian_dns => { a with iranian_dns := a.iranian_dns + 1 }
  | .cors_proxy => { a with cors_proxy := a.cors_proxy + 1 }
  | .archive => { a with archive := a.archive + 1 }

/-- Ghost instrumentation of a fetch: `made` counts every invocation of a
strategy's `method_func`; `decided` counts the invocations that updated one
of that strategy's counters (an exception or an accepted response). -/
structure Instr where
  made : AttemptCount := {}
  decided : AttemptCount := {}
deriving DecidableEq, Repr

/-- The result dict of `fetch_with_rotation`: either
`{"success": True, "content": ..., "method": ..., "status_code": ...}` or
`{"success": False, "error": "All proxy methods failed"}`. -/
structure FetchResult where
  success : Bool
  content : Option String := none
  method : Option String := none
  status_code : Option Nat := none
  error : Option String := none
deriving DecidableEq, Repr

/-- The failure dict returned when every attempt is exhausted
(`proxy_manager.py` line 88). -/
def failRecord : FetchResult :=
  { success := false, error := some "All proxy methods failed" }

/-- Whether an outcome is accepted by the chain:
`result and len(result.get("content", "")) > 100` (line 72). -/
def accepts : FetchOutcome → Bool
  | .ok content _ => content.length > 100
  | .exn => false

/-- The inner `for method_name, method_func in methods:` loop of
`fetch_with_rotation` (lines 69-83).  `env attempt m` is the oracle giving
the outcome of invoking strategy `m` during round `attempt`.  On an accepted
response the success counter is bumped and a success dict is returned; on an
exception the failure counter is bumped (the `except` branch); on a returned
response whose content is at or below 100 characters the loop merely falls
through to the next strategy, updating no counter. -/
def tryMethods (env : Nat → Method → FetchOutcome) (attempt : Nat) :
    List Method → ProxyStats → Instr →
    Option FetchResult × ProxyStats × Instr
  | [], st, ins => (none, st, ins)
  | m :: rest, st, ins =>
    let ins := { ins with made := bumpAttempt ins.made m }
    match env attempt m with
    | .exn =>
      tryMethods env attempt rest (updateProxyStats st m false)
        { ins with decided := bumpAttempt ins.decided m }
    | .ok content status =>
      if content.length > 100 then
        (some { success := true, content := some content,
                method := some (methodName m), status_code := some status },
         updateProxyStats st m true,
         { ins with decided := bumpAttempt ins.decided m })
      else
        tryMethods env attempt rest st ins

/-- The outer `for attempt in range(max_retries):` loop of
`fetch_with_rotation` (lines 68-88); `attempt` counts up as `remaining`
counts down.  The randomized `asyncio.sleep` between rounds has no
observable effect on the modelled state. -/
def fetchLoop (env : Nat → Method → FetchOutcome) :
    Nat → Nat → ProxyStats → Instr → FetchResult × ProxyStats × Instr
  | 0, _, st, ins => (failRecord, st, ins)
  | remaining + 1, attempt, st, ins =>
    match tryMethods env attempt methodsOrder st ins with
    | (some r, st, ins) => (r, st, ins)
    | (none, st, ins) => fetchLoop env remaining (attempt + 1) st ins

/-- `fetch_with_rotation(url, max_retries)` (`proxy_manager.py` 59-88),
with the network abstracted into the outcome oracle `env`. -/
def fetchWithRotation (env : Nat → Method → FetchOutcome) (max_retries : Nat)
    (st : ProxyStats) (ins : Instr) : FetchResult × ProxyStats × Instr :=
  fetchLoop env max_retries 0 st ins

/-! ## Endpoint pools and the blacklist (`backend/proxy_manager.py`) -/

/-- `self.iranian_dns` (lines 14-37). -/
def iranian_dns_pool : List String :=
  ["178.22.122.100", "185.51.200.2", "10.202.10.202", "178.22.122.101",
   "185.51.200.3", "185.43.135.1", "178.22.122.102", "178.22.122.103",
   "185.51.200.4", "10.202.10.203", "178.22.122.104", "185.51.200.5",
   "10.202.10.204", "178.22.122.105", "185.51.200.6", "10.202.10.205",
   "178.22.122.106", "185.51.200.7", "10.202.10.206", "178.22.122.107",
   "185.51.200.8", "10.202.10.207"]

/-- `self.cors_proxies` (lines 39-47). -/
def cors_proxies_pool : List String :=
  ["https://cors-anywhere.herokuapp.com/", "https://api.allorigins.win/get?url=",
   "https://corsproxy.io/?", "https://proxy.cors.sh/", "https://cors.bridged.cc/",
   "https://thingproxy.freeboard.io/fetch/", "https://yacdn.org/proxy/"]

/-- `self.archive_proxies` (lines 49-53). -/
def archive_proxies_pool : List String :=
  ["https://web.archive.org/web/", "https://archive.today/",
   "https://webcache.googleusercontent.com/search?q=cache:"]

/-- The comprehension `[e for e in pool if e not in self.failed_proxies]`
used by `_fetch_with_iranian_dns`, `_fetch_with_cors_proxy` and
`_fetch_from_archive` before `random.choice`. -/
def availableEndpoints (pool blacklist : List String) : List String :=
  pool.filter (fun e => !(blacklist.contains e))

/-- `random.choice` over the available endpoints, with the random draw
modelled by the oracle index `idx`; `none` models the `IndexError` that
`random.choice` raises on an empty sequence. -/
def selectEndpoint (pool blacklist : List String) (idx : Nat) : Option String :=
  let av := availableEndpoints pool blacklist
  av.get? (idx % av.length)

/-- Events that mutate `self.failed_proxies`: an endpoint failure inside one
of the three endpoint-based strategies (`self.failed_proxies.add(e)`,
lines 157, 214, 257) or the operator calling `reset_failed_proxies`
(lines 284-287).  No other code touches the set. -/
inductive BLEvent
  | fail (e : String)
  | reset
deriving DecidableEq, Repr

/-- One transition of the `failed_proxies` set. -/
def blStep (bl : List String) : BLEvent → List String
  | .fail e => if bl.contains e then bl else bl ++ [e]
  | .reset => []

/-- The outcome of one `_fetch_with_iranian_dns`-style call as a function of
the blacklist, the random draw and the network oracle `net`: endpoint
selection over the non-blacklisted pool, raising when none is available,
and blacklisting the chosen endpoint when the network request raises
(`proxy_manager.py` 117-158). -/
def endpointMethodOutcome (pool blacklist : List String) (idx : Nat)
    (net : String → FetchOutcome) : FetchOutcome × List String :=
  match selectEndpoint pool blacklist idx with
  | none => (.exn, blacklist)
  | some e =>
    match net e with
    | .exn => (.exn, blStep blacklist (.fail e))
    | .ok c s => (.ok c s, blacklist)

/-! ## Document store (`backend/database.py`) -/

/-- Strict lexicographic order on character lists.  For valid strings this
agrees with byte-wise UTF-8 comparison (UTF-8 preserves codepoint order),
i.e. with SQLite's default BINARY collation and Python's `str` order. -/
def charListLt : List Char → List Char → Bool
  | [], [] => false
  | [], _ :: _ => true
  | _ :: _, [] => false
  | a :: as, b :: bs => if a < b then true else if b < a then false else charListLt as bs

/-- `a ≤ b` in the BINARY collation. -/
def strLe (a b : String) : Bool := !(charListLt b.data a.data)

/-- `a < b` in the BINARY collation. -/
def strLt (a b : String) : Bool := charListLt a.data b.data

/-- Python's `str.lower()` / SQLite `NOCASE` folding, character-wise. -/
def lowerData (s : String) : List Char := s.data.map Char.toLower

/-- A row of the `documents` table (`database.py` 30-47).  `sentiment` and
`confidence` are SQLite REAL columns; only their presence and relative order
matter to the store's behaviour, so they are modelled as `Option Int`.
`entities`, `metadata` and `classification_data` are JSON strings. -/
structure Document where
  id : Nat
  url : String
  title : String
  content : String
  source : String
  category : Option String := none
  entities : Option String := none
  sentiment : Option Int := none
  confidence : Option Int := none
  scraped_at : String := ""
  content_hash : String := ""
  metadata : Option String := none
  classification_data : Option String := none
deriving DecidableEq, Repr

/-- A row of the result page built by `search_documents` (lines 243-258);
`content` is the truncated preview. -/
structure SearchRow where
  id : Nat
  url : String
  title : String
  content : String
  source : String
  category : Option String
  entities : Option String
  sentiment : Option Int
  confidence : Option Int
  scraped_at : String
  metadata : Option String
  search_rank : Int
deriving DecidableEq, Repr

/-- The result dict of `search_documents` (lines 260-266). -/
structure SearchResult where
  data : List SearchRow
  total : Nat
  page : Nat
  limit : Nat
  has_more : Bool
deriving DecidableEq, Repr

/-- Insertion sort on a boolean "comes not after" relation, standing in for
SQLite's `ORDER BY`; the engine's tie order is unspecified, this model fixes
one deterministic order. -/
def insertLe {α : Type} (le : α → α → Bool) (a : α) : List α → List α
  | [] => [a]
  | b :: bs => if le a b then a :: b :: bs else b :: insertLe le a bs

def sortByLe {α : Type} (le : α → α → Bool) : List α → List α
  | [] => []
  | a :: as => insertLe le a (sortByLe le as)

/-- `d.scraped_at DESC`. -/
def dateDescLe (a b : Document) : Bool := strLe b.scraped_at a.scraped_at

/-- `d.title COLLATE NOCASE ASC`. -/
def titleNocaseLe (a b : Document) : Bool :=
  !(charListLt (lowerData b.title) (lowerData a.title))

/-- `DESC` order on a nullable SQLite column: values descending, with `NULL`
(which SQLite sorts below every value) last. -/
def optIntDescLe (a b : Option Int) : Bool :=
  match a, b with
  | some x, some y => y ≤ x
  | some _, none => true
  | none, some _ => false
  | none, none => true

/-- The `ORDER BY` relation chosen by the `order_clause` dict lookup with
default `"d.scraped_at DESC"` (`database.py` 212-219).  With `sort_by =
"relevance"` and a non-empty query the chosen clause is the bare column
`rank` (`rank` abstracts the FTS5 bm25 rank it denotes, ascending, best
match first); over `FROM documents d` that column does not exist, so in the
real program this branch never orders anything — the statement fails to
prepare (see `searchStatementRankError`); with an empty query the lookup
falls back to date descending. -/
def orderLe (rank : Document → Int) (sort_by : String) (query : String) :
    Document → Document → Bool :=
  if sort_by = "relevance" then
    (if query = "" then dateDescLe else fun a b => rank a ≤ rank b)
  else if sort_by = "date" then dateDescLe
  else if sort_by = "title" then titleNocaseLe
  else if sort_by = "sentiment" then fun a b => optIntDescLe a.sentiment b.sentiment
  else if sort_by = "confidence" then fun a b => optIntDescLe a.confidence b.confidence
  else dateDescLe

/-- The `WHERE` conditions accumulated in `where_conditions`
(`database.py` 184-208): FTS5 membership when the query is non-empty, then
equality filters on `source` and `category` and range filters on
`scraped_at`.  `ftsMatch` abstracts the SQLite FTS5 `MATCH` over the indexed
`title, content, category, source` columns. -/
def whereConditions (ftsMatch : Document → Bool)
    (query : String) (source category date_start date_end : Option String) :
    List (Document → Bool) :=
  (if query ≠ "" then [ftsMatch] else []) ++
  (match source with | some s => [fun d => d.source = s] | none => []) ++
  (match category with | some c => [fun d => d.category = some c] | none => []) ++
  (match date_start with | some t => [fun d => strLe t d.scraped_at] | none => []) ++
  (match date_end with | some t => [fun d => strLe d.scraped_at t] | none => [])

/-- `" AND ".join(where_conditions)`, with `"1=1"` when the list is empty. -/
def whereHolds (conds : List (Document → Bool)) (d : Document) : Bool :=
  conds.all (fun c => c d)

/-- The content preview: `row[3][:500] + "..." if len(row[3]) > 500 else
row[3]` (`database.py` 248), slicing by characters as Python does. -/
def truncateContent (c : String) : String :=
  if c.length > 500 then String.mk (c.data.take 500) ++ "..." else c

/-- Building one result-page row from a document row (`database.py` 243-258);
`search_rank` is the `rank as search_rank` SELECT item — the FTS5 rank —
when the query is non-empty and the literal `0` otherwise (line 233).  The
non-empty case models what that SELECT item denotes; in the real program it
makes the statement fail to prepare (no column `rank` over
`FROM documents d`, see `searchStatementRankError`), so only the `0` case is
ever produced. -/
def previewRow (rank : Document → Int) (query : String) (d : Document) : SearchRow :=
  { id := d.id, url := d.url, title := d.title,
    content := truncateContent d.content, source := d.source,
    category := d.category, entities := d.entities, sentiment := d.sentiment,
    confidence := d.confidence, scraped_at := d.scraped_at,
    metadata := d.metadata,
    search_rank := if query ≠ "" then rank d else 0 }

/-- The page computation of `search_documents`' generated statement
(`database.py` 184-266): filter by the `WHERE` conditions, count the total,
sort by the `ORDER BY` relation, apply `LIMIT ? OFFSET ?` with
`offset = (page - 1) * limit` (line 168; Nat subtraction matches SQLite
treating a negative offset as zero), truncate each row's content, and
assemble the result dict with `has_more = (page * limit) < total_count`.
This is what the statement computes where it prepares — the statement only
prepares for the empty query, because with a non-empty query its SELECT list
(and, for the relevance sort, its ORDER BY) names the nonexistent column
`rank`; `searchDocumentsChecked` models that preparation failure, and routes
to this function exactly on the empty-query path. -/
def searchCore (ftsMatch : Document → Bool) (rank : Document → Int)
    (docs : List Document) (query : String)
    (source category date_start date_end : Option String)
    (sort_by : String) (page limit : Nat) : SearchResult :=
  let offset := (page - 1) * limit
  let filtered := docs.filter
    (whereHolds (whereConditions ftsMatch query source category date_start date_end))
  let total := filtered.length
  let sorted := sortByLe (orderLe rank sort_by query) filtered
  { data := ((sorted.drop offset).take limit).map (previewRow rank query),
    total := total, page := page, limit := limit,
    has_more := page * limit < total }

/-! ## Insertion and the search cache (`backend/database.py`) -/

/-- An SQLite value as stored/compared in the `search_cache` table: the
store writes `expires_at` as a REAL Unix timestamp
(`datetime.now().timestamp() + 3600`, line 269) while the hit test compares
it with the TEXT value `datetime('now')` (line 177). -/
inductive SVal
  | r (x : Int)
  | t (s : String)
deriving DecidableEq, Repr

/-- SQLite's `>` across storage classes: numeric values sort below all text
values, so `REAL > TEXT` is always false and `TEXT > REAL` always true;
within a class the usual order applies.  (The TEXT `datetime('now')` string
is not a well-formed numeric literal, so NUMERIC affinity leaves it TEXT.) -/
def svalGt : SVal → SVal → Bool
  | .r a, .r b => b < a
  | .t a, .t b => strLt b a
  | .r _, .t _ => false
  | .t _, .r _ => true

/-- A row of the `search_cache` table (`database.py` 60-68); `created_at` is
never read back and is omitted. -/
structure CacheEntry where
  query : String
  results : SearchResult
  expires_at : SVal
deriving DecidableEq, Repr

/-- The store's persistent state: the `documents` table (with its FTS index
kept in lock-step by triggers) and the `search_cache` table keyed by
`query_hash`. -/
structure DBState where
  docs : List Document := []
  cache : List (String × CacheEntry) := []
deriving DecidableEq, Repr

/-- `INSERT OR REPLACE INTO search_cache` keyed on `query_hash`. -/
def cacheReplace (key : String) (e : CacheEntry) :
    List (String × CacheEntry) → List (String × CacheEntry)
  | [] => [(key, e)]
  | (k, e₀) :: rest =>
    if k = key then (k, e) :: rest else (k, e₀) :: cacheReplace key e rest

/-- `SELECT results FROM search_cache WHERE query_hash = ? AND expires_at >
datetime('now')` (`database.py` 175-178). -/
def cacheLookupLive (cache : List (String × CacheEntry)) (key : String)
    (nowStr : String) : Option SearchResult :=
  match cache.find? (fun kv => kv.1 = key ∧ svalGt kv.2.expires_at (.t nowStr)) with
  | some kv => some kv.2.results
  | none => none

def optStr : Option String → String
  | some s => s
  | none => "None"

/-- The f-string
`f"{query}_{source}_{category}_{date_start}_{date_end}_{sort_by}_{page}_{limit}"`
hashed into `query_hash` (`database.py` 171); Python formats `None` as
`"None"`. -/
def cacheKeyString (query : String) (source category date_start date_end : Option String)
    (sort_by : String) (page limit : Nat) : String :=
  query ++ "_" ++ optStr source ++ "_" ++ optStr category ++ "_" ++
  optStr date_start ++ "_" ++ optStr date_end ++ "_" ++ sort_by ++ "_" ++
  toString page ++ "_" ++ toString limit

/-- `search_documents` (`database.py` 163-276) with caching, on the path
where the page statement prepares: compute the key (`md5` abstracts the
`hashlib.md5` hexdigest), return a live cache entry verbatim if the hit test
passes, otherwise run the query and write the result back with
`expires_at = datetime.now().timestamp() + 3600` stored as a REAL.  `nowTs`
is the current Unix timestamp and `nowStr` the current `datetime('now')`
TEXT.  The full model is `searchDocumentsChecked`, which adds the
`OperationalError` every non-empty query raises at statement preparation;
this function is its empty-query branch (and C2's scenario exercises only
that faithful branch). -/
def searchDocuments (md5 : String → String)
    (ftsMatch : Document → Bool) (rank : Document → Int)
    (st : DBState) (query : String)
    (source category date_start date_end : Option String)
    (sort_by : String) (page limit : Nat)
    (nowTs : Int) (nowStr : String) : SearchResult × DBState :=
  let key := md5 (cacheKeyString query source category date_start date_end sort_by page limit)
  match cacheLookupLive st.cache key nowStr with
  | some cached => (cached, st)
  | none =>
    let result := searchCore ftsMatch rank st.docs query source category
      date_start date_end sort_by page limit
    let entry : CacheEntry :=
      { query := query ++ "_" ++ optStr source ++ "_" ++ optStr category,
        results := result, expires_at := .r (nowTs + 3600) }
    (result, { st with cache := cacheReplace key entry st.cache })

/-- The `search_rank` SELECT-list item of the generated page statement:
`{f'rank' if query else '0'} as search_rank` (`database.py` line 233). -/
def searchRankSelectItem (query : String) : String :=
  if query ≠ "" then "rank" else "0"

/-- The `ORDER BY` clause text chosen by the `order_clause` dict lookup
(`database.py` 212-219). -/
def orderClauseSql (sort_by query : String) : String :=
  if sort_by = "relevance" then
    (if query = "" then "d.scraped_at DESC" else "rank")
  else if sort_by = "date" then "d.scraped_at DESC"
  else if sort_by = "title" then "d.title COLLATE NOCASE ASC"
  else if sort_by = "sentiment" then "d.sentiment DESC"
  else if sort_by = "confidence" then "d.confidence DESC"
  else "d.scraped_at DESC"

/-- The columns of the `documents` table (`database.py` 30-47) — the only
relation in the page statement's `FROM documents d` clause (the FTS5 table
appears only inside the `WHERE` subquery).  There is no column `rank`. -/
def documentsColumns : List String :=
  ["id", "url", "title", "content", "source", "category", "entities",
   "sentiment", "confidence", "scraped_at", "content_hash", "metadata",
   "classification_data"]

/-- Whether preparing the generated page statement fails with
`sqlite3.OperationalError: no such column: rank`: the statement names the
bare column `rank` — in the SELECT list (line 233) or the ORDER BY clause
(line 214) — while `FROM documents d` offers no such column. -/
def searchStatementRankError (query sort_by : String) : Bool :=
  (searchRankSelectItem query = "rank" || orderClauseSql sort_by query = "rank") &&
    !(documentsColumns.contains "rank")

/-- `search_documents` (`database.py` 163-276) in full, the statement
preparation modelled: a (hypothetical) live cache hit returns before any SQL
is built; on a miss the count query runs, and then preparing the page
statement raises `OperationalError: no such column: rank` for every
non-empty query — the exception propagates, nothing is cached; only the
empty-query statement prepares, in which case the behaviour is
`searchDocuments` (page computed, result cached for an hour). -/
def searchDocumentsChecked (md5 : String → String)
    (ftsMatch : Document → Bool) (rank : Document → Int)
    (st : DBState) (query : String)
    (source category date_start date_end : Option String)
    (sort_by : String) (page limit : Nat)
    (nowTs : Int) (nowStr : String) : Except String (SearchResult × DBState) :=
  let key := md5 (cacheKeyString query source category date_start date_end sort_by page limit)
  match cacheLookupLive st.cache key nowStr with
  | some cached => .ok (cached, st)
  | none =>
    if searchStatementRankError query sort_by then
      .error "no such column: rank"
    else
      .ok (searchDocuments md5 ftsMatch rank st query source category
        date_start date_end sort_by page limit nowTs nowStr)

/-- `insert_document` (`database.py` 121-161): hash the content (`sha256`
abstracts `hashlib.sha256` hexdigest), return `False` if a document with
that hash exists; otherwise `INSERT`, which raises `sqlite3.IntegrityError`
— caught, returning `False` — when the UNIQUE `url` column collides; on
success the row is stored with an autoincremented id and
`scraped_at = CURRENT_TIMESTAMP` (`now`). -/
def insertDocument (sha256 : String → String) (docs : List Document)
    (url title content source : String) (category : Option String := none)
    (classification : Option String := none) (entities : Option String := none)
    (sentiment : Option Int := none) (confidence : Option Int := none)
    (metadata : Option String := none) (now : String := "") : Bool × List Document :=
  let content_hash := sha256 content
  if docs.any (fun d => d.content_hash = content_hash) then
    (false, docs)
  else if docs.any (fun d => d.url = url) then
    (false, docs)
  else
    (true, docs ++ [{ id := docs.length + 1, url := url, title := title,
                      content := content, source := source, category := category,
                      entities := entities, sentiment := sentiment,
                      confidence := confidence, scraped_at := now,
                      content_hash := content_hash, metadata := metadata,
                      classification_data := classification }])

/-! ## Crawler (`backend/scraper.py`) -/

/-- Python's substring test `needle in hay`. -/
def substrContains (needle : String) (hay : List Char) : Bool :=
  hay.tails.any (fun t => needle.data.isPrefixOf t)

/-- The `document_indicators` list of `is_document_url`
(`scraper.py` 185-188). -/
def documentIndicators : List String :=
  ["law", "rule", "regulation", "verdict", "decision",
   "قانون", "مقرره", "آیین‌نامه", "رأی", "حکم", "مصوبه"]

/-- `is_document_url` (`scraper.py` 183-191): keep a URL when its lowercased
form contains any document-likelihood keyword. -/
def isDocumentUrl (url : String) : Bool :=
  documentIndicators.any (fun ind => substrContains ind (lowerData url))

/-- The candidate-set accumulation of `discover_document_urls`
(`scraper.py` 141-181): each discovered (already base-joined) URL is added
to the `urls` set exactly when `is_document_url` holds; the Python `set`
is modelled as a duplicate-free list in first-seen order. -/
def discoverCandidates (links : List String) : List String :=
  links.foldl
    (fun acc u => if isDocumentUrl u ∧ u ∉ acc then acc ++ [u] else acc) []

/-- What one `scrape_document` call does to the counters: the document is
stored (`success`, `documents_processed += 1`), skipped as a non-document or
duplicate (returns `False`, no counter), or errors
(`error_count += 1`). -/
inductive DocOutcome
  | success
  | skip
  | error
deriving DecidableEq, Repr

/-- The crawl-relevant mutable state of `LegalDocumentScraper`
(`scraper.py` 52-64) together with the list of candidate URLs the current
run still has to process. -/
structure ScraperState where
  is_scraping : Bool := false
  current_url : String := ""
  documents_processed : Nat := 0
  total_documents : Nat := 0
  error_count : Nat := 0
  pending : List String := []
deriving DecidableEq, Repr

/-- `stop_scraping` (`scraper.py` 379-382): set the flag false and clear
`current_url`; nothing else. -/
def stopScraping (s : ScraperState) : ScraperState :=
  { s with is_scraping := false, current_url := "" }

/-- One document pipeline of `scrape_document` (`scraper.py` 193-283) as a
state update, with the fetch/extract/insert outcome given by the oracle
`out`.  Note that nothing in `scrape_document` reads `is_scraping`. -/
def scrapeDocument (out : String → DocOutcome) (s : ScraperState) (url : String) :
    ScraperState :=
  let s := { s with current_url := url }
  match out url with
  | .success => { s with documents_processed := s.documents_processed + 1 }
  | .skip => s
  | .error => { s with error_count := s.error_count + 1 }

/-- The document loop of `scrape_site` (`scraper.py` 306-319): every task in
`tasks` is created from the full candidate list and awaited via
`asyncio.gather`; no iteration consults `is_scraping`, so all pending
documents are processed. -/
def runPending (out : String → DocOutcome) (s : ScraperState) : ScraperState :=
  { s.pending.foldl (scrapeDocument out) s with pending := [] }

/-! ## Concrete fixtures used by witnesses and counterexamples -/

/-- A response body strictly above the 100-character acceptance threshold. -/
def longContent : String := String.mk (List.replicate 101 'a')

/-- Oracle: Direct and DNS-rotated raise, Proxy-relay answers with content
above the threshold. -/
def envProxySuccess : Nat → Method → FetchOutcome := fun _ m =>
  match m with
  | .cors_proxy => .ok longContent 200
  | _ => .exn

/-- Oracle: Direct returns a 200 response whose content is below the
acceptance threshold, every other strategy raises. -/
def envShortDirect : Nat → Method → FetchOutcome := fun _ m =>
  match m with
  | .direct => .ok "short" 200
  | _ => .exn

/-- Oracle: every strategy raises on every round. -/
def envAllFail : Nat → Method → FetchOutcome := fun _ _ => .exn

/-- Fixture document A: relevance-best match, title later in NOCASE order. -/
def docA : Document :=
  { id := 1, url := "https://a/law/1", title := "B-title", content := "content about law",
    source := "s1", scraped_at := "2026-01-02 00:00:00", content_hash := "hA" }

/-- Fixture document B: relevance-worse match, title first in NOCASE order. -/
def docB : Document :=
  { id := 2, url := "https://a/law/2", title := "A-title", content := "another law text",
    source := "s1", scraped_at := "2026-01-01 00:00:00", content_hash := "hB" }

/-- Fixture FTS oracle: every document matches. -/
def ftsAll : Document → Bool := fun _ => true

/-- Fixture FTS rank: `docA` ranks strictly better (smaller) than `docB`. -/
def rankFix : Document → Int := fun d => if d.id = 1 then -5 else -1

/-- Fixture store state: the two fixture documents, empty cache. -/
def stAB : DBState := { docs := [docA, docB], cache := [] }

/-- Fixture store for the C1 counterexample: one document at url `u1` with
content `X` (hash function is the identity in the fixture). -/
def storeX : List Document :=
  [{ id := 1, url := "u1", title := "t0", content := "X", source := "s",
     content_hash := "X" }]

/-- Fixture rank: constant. -/
def rankZero : Document → Int := fun _ => 0

/-- C2 scenario, first step: `search_documents` with an empty query and
default arguments on the empty store at Unix time 1000. -/
def c2Step1 : SearchResult × DBState :=
  searchDocuments id ftsAll rankZero {} "" none none none none "relevance" 1 10
    1000 "2026-01-01 00:00:00"

/-- The cache key the C2 scenario's arguments produce (identity `md5`). -/
def c2Key : String := "_None_None_None_None_relevance_1_10"

/-- C2 scenario, second step: a new document is inserted (no cache
invalidation — `insert_document` touches only `documents`). -/
def c2Insert : Bool × List Document :=
  insertDocument id c2Step1.2.docs "https://x/law/9" "fresh title"
    "fresh document content" "src" none none none none none none
    "2026-01-01 00:00:05"

/-- C2 scenario: the store state after the insert. -/
def c2State2 : DBState := { docs := c2Insert.2, cache := c2Step1.2.cache }

/-- C2 scenario, third step: the byte-identical search repeated at Unix time
1010, ten seconds later and well within the 3600-second TTL. -/
def c2Step2 : SearchResult × DBState :=
  searchDocuments id ftsAll rankZero c2State2 "" none none none none "relevance" 1 10
    1010 "2026-01-01 00:00:10"

/-! ## Shared lemmas -/

theorem insertLe_perm {α : Type} (le : α → α → Bool) (a : α) (l : List α) :
    (insertLe le a l).Perm (a :: l) := by
  induction l with
  | nil => simp [insertLe]
  | cons b bs ih =>
    simp only [insertLe]
    by_cases h : le a b
    · simp [h]
    · simp only [if_neg h]
      exact (ih.cons b).trans (List.Perm.swap a b bs)

theorem sortByLe_perm {α : Type} (le : α → α → Bool) (l : List α) :
    (sortByLe le l).Perm l := by
  induction l with
  | nil => simp [sortByLe]
  | cons a as ih => exact (insertLe_perm le a (sortByLe le as)).trans (ih.cons a)

theorem discover_foldl_mem (links : List String) (acc : List String) (u : String) :
    (u ∈ links.foldl
        (fun acc u => if isDocumentUrl u ∧ u ∉ acc then acc ++ [u] else acc) acc) ↔
      u ∈ acc ∨ (u ∈ links ∧ isDocumentUrl u = true) := by
  induction links generalizing acc with
  | nil => simp
  | cons l ls ih =>
    simp only [List.foldl_cons]
    rw [ih]
    by_cases h : isDocumentUrl l ∧ l ∉ acc
    · rw [if_pos h]
      simp only [List.mem_append, List.mem_cons, List.not_mem_nil, or_false]
      constructor
      · rintro ((hu | rfl) | hu)
        · exact Or.inl hu
        · exact Or.inr ⟨Or.inl rfl, h.1⟩
        · exact Or.inr ⟨Or.inr hu.1, hu.2⟩
      · rintro (hu | ⟨rfl | hu, hp⟩)
        · exact Or.inl (Or.inl hu)
        · exact Or.inl (Or.inr rfl)
        · exact Or.inr ⟨hu, hp⟩
    · rw [if_neg h]
      simp only [List.mem_cons]
      constructor
      · rintro (hu | hu)
        · exact Or.inl hu
        · exact Or.inr ⟨Or.inr hu.1, hu.2⟩
      · rintro (hu | ⟨rfl | hu, hp⟩)
        · exact Or.inl hu
        · rcases Classical.em (u ∈ acc) with hin | hout
          · exact Or.inl hin
          · exact absurd ⟨hp, hout⟩ h
        · exact Or.inr ⟨hu, hp⟩

theorem discover_foldl_nodup (links : List String) (acc : List String)
    (h : acc.Nodup) :
    (links.foldl
      (fun acc u => if isDocumentUrl u ∧ u ∉ acc then acc ++ [u] else acc) acc).Nodup := by
  induction links generalizing acc with
  | nil => exact h
  | cons l ls ih =>
    simp only [List.foldl_cons]
    by_cases hc : isDocumentUrl l ∧ l ∉ acc
    · rw [if_pos hc]
      refine ih _ (List.nodup_append.mpr ⟨h, List.nodup_singleton l, ?_⟩)
      intro a ha hal
      rw [List.mem_singleton] at hal
      exact hc.2 (hal ▸ ha)
    · rw [if_neg hc]
      exact ih _ h

/-! ## Claim theorems -/

/-- C9 (confirmed).  URL discovery heuristic: a discovered URL is kept in the
candidate set if and only if it contains a document-likelihood keyword; the
URL `https://site/about` is excluded, `https://site/law/42` is included, and
the accumulated candidate set contains no duplicates. -/
theorem url_discovery_heuristic (links : List String) (u : String) :
    (u ∈ discoverCandidates links ↔ u ∈ links ∧ isDocumentUrl u = true) ∧
    (discoverCandidates links).Nodup ∧
    isDocumentUrl "https://site/about" = false ∧
    isDocumentUrl "https://site/law/42" = true := by
  refine ⟨?_, ?_, by decide, by decide⟩
  · unfold discoverCandidates
    rw [discover_foldl_mem]
    simp
  · exact discover_foldl_nodup links [] (List.nodup_nil)

/-- C1 counterexample.  When the first insert of content `Y` fails on the
UNIQUE `url` constraint (stored url `u1`, new hash), a second insert of the
byte-identical content under url `u2` returns `True` and grows the store —
against the claim that the second of two byte-identical inserts returns
false and leaves the document set unchanged. -/
theorem insert_second_true_cx :
    (insertDocument id storeX "u1" "t" "Y" "s" none none none none none none "").1 = false ∧
    (insertDocument id storeX "u1" "t" "Y" "s" none none none none none none "").2 = storeX ∧
    (insertDocument id
      (insertDocument id storeX "u1" "t" "Y" "s" none none none none none none "").2
      "u2" "t" "Y" "s" none none none none none none "").1 = true ∧
    (insertDocument id
      (insertDocument id storeX "u1" "t" "Y" "s" none none none none none none "").2
      "u2" "t" "Y" "s" none none none none none none "").2 ≠
      (insertDocument id storeX "u1" "t" "Y" "s" none none none none none none "").2 := by
  refine ⟨by decide, by decide, by decide, by decide⟩

/-- C1 (corrected).  Idempotent ingestion, amended: when the first of two
inserts with byte-identical `content` succeeds (returns `True`), the second
— under any url — returns `False` rather than raising, leaves the stored
document list unchanged, and exactly one stored document carries that
content's hash. -/
theorem insert_idempotent_amended (sha256 : String → String) (docs : List Document)
    (u1 t1 s1 u2 t2 s2 c : String)
    (cat1 cls1 ent1 md1 cat2 cls2 ent2 md2 : Option String)
    (sen1 conf1 sen2 conf2 : Option Int) (now1 now2 : String)
    (h : (insertDocument sha256 docs u1 t1 c s1 cat1 cls1 ent1 sen1 conf1 md1 now1).1 = true) :
    (insertDocument sha256
        (insertDocument sha256 docs u1 t1 c s1 cat1 cls1 ent1 sen1 conf1 md1 now1).2
        u2 t2 c s2 cat2 cls2 ent2 sen2 conf2 md2 now2).1 = false ∧
    (insertDocument sha256
        (insertDocument sha256 docs u1 t1 c s1 cat1 cls1 ent1 sen1 conf1 md1 now1).2
        u2 t2 c s2 cat2 cls2 ent2 sen2 conf2 md2 now2).2 =
      (insertDocument sha256 docs u1 t1 c s1 cat1 cls1 ent1 sen1 conf1 md1 now1).2 ∧
    ((insertDocument sha256 docs u1 t1 c s1 cat1 cls1 ent1 sen1 conf1 md1 now1).2.filter
        (fun d => d.content_hash = sha256 c)).length = 1 := by
  cases hh : docs.any (fun d => d.content_hash = sha256 c) with
  | true =>
    exfalso
    rw [insertDocument, if_pos hh] at h
    exact Bool.false_ne_true h
  | false =>
    cases hu : docs.any (fun d => d.url = u1) with
    | true =>
      exfalso
      rw [insertDocument, if_neg (by simp [hh]), if_pos hu] at h
      exact Bool.false_ne_true h
    | false =>
      have hst : (insertDocument sha256 docs u1 t1 c s1 cat1 cls1 ent1 sen1 conf1 md1 now1).2 =
          docs ++ [{ id := docs.length + 1, url := u1, title := t1, content := c,
                     source := s1, category := cat1, entities := ent1, sentiment := sen1,
                     confidence := conf1, scraped_at := now1, content_hash := sha256 c,
                     metadata := md1, classification_data := cls1 }] := by
        rw [insertDocument, if_neg (by simp [hh]), if_neg (by simp [hu])]
      have hany : ((insertDocument sha256 docs u1 t1 c s1 cat1 cls1 ent1 sen1 conf1 md1 now1).2.any
          (fun d => d.content_hash = sha256 c)) = true := by
        rw [hst, List.any_append]
        simp
      refine ⟨?_, ?_, ?_⟩
      · rw [insertDocument, if_pos hany]
      · rw [insertDocument, if_pos hany]
      · rw [hst, List.filter_append]
        have hnil : docs.filter (fun d => decide (d.content_hash = sha256 c)) = [] := by
          rw [List.filter_eq_nil_iff]
          intro a ha
          have := List.any_eq_false.mp hh a ha
          simpa using this
        simp [hnil]

/-- C1 witness: the amended theorem at a concrete store — inserting content
`"C"` into the empty store succeeds, and re-inserting it under another url
returns false, changes nothing, and leaves one document with its hash. -/
theorem insert_idempotent_witness :
    (insertDocument id
        (insertDocument id [] "ua" "ta" "C" "sa" none none none none none none "n1").2
        "ub" "tb" "C" "sb" none none none none none none "n2").1 = false ∧
    (insertDocument id
        (insertDocument id [] "ua" "ta" "C" "sa" none none none none none none "n1").2
        "ub" "tb" "C" "sb" none none none none none none "n2").2 =
      (insertDocument id [] "ua" "ta" "C" "sa" none none none none none none "n1").2 ∧
    ((insertDocument id [] "ua" "ta" "C" "sa" none none none none none none "n1").2.filter
        (fun d => d.content_hash = id "C")).length = 1 :=
  insert_idempotent_amended id [] "ua" "ta" "sa" "ub" "tb" "sb" "C"
    none none none none none none none none none none none none "n1" "n2" (by decide)

theorem foldl_scrape_processed (out : String → DocOutcome) (urls : List String) :
    ∀ s : ScraperState,
      (urls.foldl (scrapeDocument out) s).documents_processed =
        s.documents_processed + urls.countP (fun u => decide (out u = DocOutcome.success)) := by
  induction urls with
  | nil => intro s; simp
  | cons u us ih =>
    intro s
    rw [List.foldl_cons, ih, List.countP_cons]
    cases h : out u <;> simp [scrapeDocument, h] <;> try omega

/-- C7 counterexample.  `stop_scraping` is called while one candidate URL is
still pending; the claim says no further document pipeline is started after
the stop is observed, yet the loop still processes the pending document and
`documents_processed` rises from 0 to 1. -/
theorem stop_not_observed_cx :
    (runPending (fun _ => DocOutcome.success)
      (stopScraping
        { is_scraping := true, current_url := "u0", documents_processed := 0,
          total_documents := 1, error_count := 0,
          pending := ["https://x/law/1"] })).documents_processed = 1 ∧
    (1 : Nat) ≠ 0 := by
  refine ⟨by decide, by decide⟩

/-- C7 (corrected).  Stop semantics, amended: `stop()` sets the running flag
false and clears `current_url`, but the in-flight crawl loop never observes
the flag — every document still pending is processed regardless (the run's
document count grows by the number of successful pending documents, and is
the same whether or not stop was called); the flag only guards the start of
a new overlapping run. -/
theorem stop_semantics_amended (out : String → DocOutcome) (s : ScraperState) :
    (stopScraping s).is_scraping = false ∧
    (stopScraping s).current_url = "" ∧
    (runPending out (stopScraping s)).documents_processed =
      s.documents_processed +
        s.pending.countP (fun u => decide (out u = DocOutcome.success)) ∧
    (runPending out (stopScraping s)).pending = [] ∧
    (runPending out (stopScraping s)).documents_processed =
      (runPending out s).documents_processed := by
  refine ⟨rfl, rfl, ?_, rfl, ?_⟩
  · show (((stopScraping s).pending.foldl (scrapeDocument out)
        (stopScraping s)).documents_processed) = _
    rw [foldl_scrape_processed]
    rfl
  · show (((stopScraping s).pending.foldl (scrapeDocument out)
        (stopScraping s)).documents_processed) =
      ((s.pending.foldl (scrapeDocument out) s).documents_processed)
    rw [foldl_scrape_processed, foldl_scrape_processed]
    rfl

/-- C2 (code bug).  The first search writes a cache entry under the right
key with `expires_at` stored as the REAL Unix timestamp 4600; ten seconds
later — far inside the 3600-second TTL — the hit test
`expires_at > datetime('now')` compares that REAL with a TEXT datetime, which
SQLite always orders above every numeric, so the lookup misses, and the
repeated identical search re-runs the query and returns the fresh result
(total 1, including the newly inserted document) instead of the cached page
(total 0) the claim promises. -/
theorem search_cache_never_hits :
    c2Step1.2.cache.map Prod.fst = [c2Key] ∧
    c2Step1.2.cache.map (fun kv => kv.2.expires_at) = [SVal.r 4600] ∧
    (1010 : Int) < 4600 ∧
    cacheLookupLive c2Step1.2.cache c2Key "2026-01-01 00:00:10" = none ∧
    c2Insert.1 = true ∧
    c2Step1.1.total = 0 ∧
    c2Step2.1.total = 1 ∧
    c2Step2.1 ≠ c2Step1.1 := by
  refine ⟨by decide, by decide, by decide, by decide, by decide, by decide, by decide, by decide⟩

/-- C4 (confirmed).  When Direct and DNS-rotated both raise on the first
round and the Proxy-relay strategy (`cors_proxy`) then returns content above
the minimum length, the chain reports success with `method = "cors_proxy"`
and the final statistics are exactly the initial ones with the Direct and
DNS-rotated failure counters and the Proxy-relay success counter each
incremented once (in particular, nothing else — the Archive-mirror counters
included — changes). -/
theorem fetch_fallback_proxy_relay
    (env : Nat → Method → FetchOutcome) (st : ProxyStats) (ins : Instr)
    (n : Nat) (c : String) (sc : Nat)
    (hn : 1 ≤ n)
    (hd : env 0 .direct = .exn)
    (hdns : env 0 .iranian_dns = .exn)
    (hc : env 0 .cors_proxy = .ok c sc)
    (hlen : c.length > 100) :
    (fetchWithRotation env n st ins).1 =
      { success := true, content := some c, method := some "cors_proxy",
        status_code := some sc, error := none } ∧
    (fetchWithRotation env n st ins).2.1 =
      { st with
          direct := { st.direct with failed := st.direct.failed + 1 },
          iranian_dns := { st.iranian_dns with failed := st.iranian_dns.failed + 1 },
          cors_proxy := { st.cors_proxy with success := st.cors_proxy.success + 1 } } := by
  obtain ⟨k, rfl⟩ : ∃ k, n = k + 1 := ⟨n - 1, by omega⟩
  constructor <;>
    simp [fetchWithRotation, fetchLoop, methodsOrder, tryMethods, hd, hdns, hc,
      hlen, updateProxyStats, methodName]

/-- C4 witness: the fallback theorem at the concrete oracle where Direct and
DNS-rotated raise and the Proxy-relay returns 101 characters. -/
theorem fetch_fallback_proxy_relay_witness :
    (fetchWithRotation envProxySuccess 3 {} {}).1 =
      { success := true, content := some longContent, method := some "cors_proxy",
        status_code := some 200, error := none } ∧
    (fetchWithRotation envProxySuccess 3 {} {}).2.1 =
      { direct := { success := 0, failed := 1 },
        iranian_dns := { success := 0, failed := 1 },
        cors_proxy := { success := 1, failed := 0 },
        archive := { success := 0, failed := 0 } } := by
  have h := fetch_fallback_proxy_relay envProxySuccess {} {} 3 longContent 200
    (by omega) rfl rfl rfl (by decide)
  exact ⟨h.1, h.2⟩

theorem getAttempts_bump (a : AttemptCount) (m m' : Method) :
    getAttempts (bumpAttempt a m) m' =
      getAttempts a m' + (if m' = m then 1 else 0) := by
  cases m <;> cases m' <;> simp [bumpAttempt, getAttempts]

theorem sum_update (st : ProxyStats) (m m' : Method) (b : Bool) :
    (getStats (updateProxyStats st m b) m').success +
      (getStats (updateProxyStats st m b) m').failed =
    (getStats st m').success + (getStats st m').failed + (if m' = m then 1 else 0) := by
  cases m <;> cases m' <;> cases b <;> simp [updateProxyStats, getStats] <;> omega

theorem tryMethods_bookkeeping (env : Nat → Method → FetchOutcome) (a : Nat)
    (ms : List Method) :
    ∀ (st : ProxyStats) (ins : Instr) (m : Method),
      (getStats (tryMethods env a ms st ins).2.1 m).success +
        (getStats (tryMethods env a ms st ins).2.1 m).failed +
        getAttempts ins.decided m =
      (getStats st m).success + (getStats st m).failed +
        getAttempts (tryMethods env a ms st ins).2.2.decided m ∧
      getAttempts (tryMethods env a ms st ins).2.2.decided m +
        getAttempts ins.made m ≤
      getAttempts ins.decided m +
        getAttempts (tryMethods env a ms st ins).2.2.made m := by
  induction ms with
  | nil =>
    intro st ins m
    simp [tryMethods]
  | cons m0 rest ih =>
    intro st ins m
    simp only [tryMethods]
    cases h : env a m0 with
    | exn =>
      simp only [h]
      have hrec := ih (updateProxyStats st m0 false)
        { ins with made := bumpAttempt ins.made m0,
                   decided := bumpAttempt ins.decided m0 } m
      rw [sum_update] at hrec
      simp only [getAttempts_bump] at hrec
      constructor
      · omega
      · omega
    | ok content status =>
      simp only [h]
      by_cases hlen : content.length > 100
      · rw [if_pos hlen]
        simp only [sum_update, getAttempts_bump]
        constructor
        · omega
        · omega
      · rw [if_neg hlen]
        have hrec := ih st { ins with made := bumpAttempt ins.made m0 } m
        simp only [getAttempts_bump] at hrec
        constructor
        · omega
        · omega

theorem fetchLoop_bookkeeping (env : Nat → Method → FetchOutcome) (k : Nat) :
    ∀ (a : Nat) (st : ProxyStats) (ins : Instr) (m : Method),
      (getStats (fetchLoop env k a st ins).2.1 m).success +
        (getStats (fetchLoop env k a st ins).2.1 m).failed +
        getAttempts ins.decided m =
      (getStats st m).success + (getStats st m).failed +
        getAttempts (fetchLoop env k a st ins).2.2.decided m ∧
      getAttempts (fetchLoop env k a st ins).2.2.decided m +
        getAttempts ins.made m ≤
      getAttempts ins.decided m +
        getAttempts (fetchLoop env k a st ins).2.2.made m := by
  induction k with
  | zero =>
    intro a st ins m
    simp [fetchLoop]
  | succ k ih =>
    intro a st ins m
    simp only [fetchLoop]
    cases htry : tryMethods env a methodsOrder st ins with
    | mk r rest =>
      obtain ⟨st', ins'⟩ := rest
      have hm := tryMethods_bookkeeping env a methodsOrder st ins m
      rw [htry] at hm
      dsimp only at hm
      cases r with
      | none =>
        dsimp only
        have hrec := ih (a + 1) st' ins' m
        constructor
        · omega
        · omega
      | some result =>
        dsimp only
        exact hm

/-- C5 counterexample.  During a one-round fetch the Direct strategy is
attempted once and returns a 200 response with content at or below the
100-character threshold: neither of Direct's counters is incremented, so the
sum of the counters (0) differs from the number of attempts made with that
strategy (1) — against the claim that exactly one counter is incremented on
every attempt. -/
theorem counter_skip_short_response_cx :
    (fetchWithRotation envShortDirect 1 {} {}).2.2.made.direct = 1 ∧
    (fetchWithRotation envShortDirect 1 {} {}).2.1.direct.success +
      (fetchWithRotation envShortDirect 1 {} {}).2.1.direct.failed = 0 ∧
    (0 : Nat) ≠ 1 := by
  refine ⟨by decide, by decide, by decide⟩

/-- C5 (corrected).  Counter bookkeeping, amended: an attempt that raises
increments exactly the strategy's failure counter and an accepted attempt
(content above the threshold) exactly its success counter, but an attempt
returning content at or below the threshold increments neither; hence the
sum of a strategy's counters grows by the number of its counter-updating
(raised or accepted) attempts, which is at most — not always equal to — the
number of attempts made with that strategy. -/
theorem counter_bookkeeping_amended (env : Nat → Method → FetchOutcome)
    (n : Nat) (st : ProxyStats) (m : Method) :
    (getStats (fetchWithRotation env n st {}).2.1 m).success +
      (getStats (fetchWithRotation env n st {}).2.1 m).failed =
    (getStats st m).success + (getStats st m).failed +
      getAttempts (fetchWithRotation env n st {}).2.2.decided m ∧
    getAttempts (fetchWithRotation env n st {}).2.2.decided m ≤
      getAttempts (fetchWithRotation env n st {}).2.2.made m ∧
    (getStats (updateProxyStats st m true) m).success =
      (getStats st m).success + 1 ∧
    (getStats (updateProxyStats st m true) m).failed = (getStats st m).failed ∧
    (getStats (updateProxyStats st m false) m).failed =
      (getStats st m).failed + 1 ∧
    (getStats (updateProxyStats st m false) m).success =
      (getStats st m).success := by
  have h := fetchLoop_bookkeeping env n 0 st {} m
  have hz : getAttempts ({} : Instr).decided m = 0 := by
    cases m <;> rfl
  have hzm : getAttempts ({} : Instr).made m = 0 := by
    cases m <;> rfl
  obtain ⟨h1, h2⟩ := h
  refine ⟨?_, ?_, ?_, ?_, ?_, ?_⟩
  · simp only [fetchWithRotation]
    omega
  · simp only [fetchWithRotation]
    omega
  · cases m <;> rfl
  · cases m <;> rfl
  · cases m <;> rfl
  · cases m <;> rfl

theorem mem_methodsOrder (m : Method) : m ∈ methodsOrder := by
  cases m <;> decide

theorem tryMethods_none_iff (env : Nat → Method → FetchOutcome) (a : Nat)
    (ms : List Method) :
    ∀ (st : ProxyStats) (ins : Instr),
      (tryMethods env a ms st ins).1 = none ↔
        ∀ m ∈ ms, accepts (env a m) = false := by
  induction ms with
  | nil =>
    intro st ins
    simp [tryMethods]
  | cons m0 rest ih =>
    intro st ins
    simp only [tryMethods]
    cases h : env a m0 with
    | exn =>
      dsimp only
      rw [ih]
      simp [accepts, h]
    | ok content status =>
      dsimp only
      by_cases hlen : content.length > 100
      · rw [if_pos hlen]
        dsimp only
        constructor
        · intro hfalse
          exact absurd hfalse (by simp)
        · intro hall
          have := hall m0 (List.mem_cons_self m0 rest)
          rw [h] at this
          simp [accepts, hlen] at this
      · rw [if_neg hlen]
        rw [ih]
        have hacc : accepts (env a m0) = false := by
          rw [h]
          simpa [accepts] using hlen
        simp [hacc]

theorem tryMethods_some_success (env : Nat → Method → FetchOutcome) (a : Nat)
    (ms : List Method) :
    ∀ (st : ProxyStats) (ins : Instr) (r : FetchResult),
      (tryMethods env a ms st ins).1 = some r → r.success = true := by
  induction ms with
  | nil =>
    intro st ins r h
    simp [tryMethods] at h
  | cons m0 rest ih =>
    intro st ins r h
    simp only [tryMethods] at h
    cases henv : env a m0 with
    | exn =>
      rw [henv] at h
      exact ih _ _ r h
    | ok content status =>
      rw [henv] at h
      dsimp only at h
      by_cases hlen : content.length > 100
      · rw [if_pos hlen] at h
        dsimp only at h
        cases h
        rfl
      · rw [if_neg hlen] at h
        exact ih _ _ r h

theorem fetchLoop_fail_iff (env : Nat → Method → FetchOutcome) (k : Nat) :
    ∀ (a : Nat) (st : ProxyStats) (ins : Instr),
      (fetchLoop env k a st ins).1 = failRecord ↔
        ∀ j, j < k → ∀ m : Method, accepts (env (a + j) m) = false := by
  induction k with
  | zero =>
    intro a st ins
    simp [fetchLoop]
  | succ k ih =>
    intro a st ins
    simp only [fetchLoop]
    cases htry : tryMethods env a methodsOrder st ins with
    | mk r rest =>
      obtain ⟨st', ins'⟩ := rest
      cases r with
      | some result =>
        dsimp only
        have hs := tryMethods_some_success env a methodsOrder st ins result
          (by rw [htry])
        constructor
        · intro hr
          rw [hr] at hs
          exact absurd hs (by simp [failRecord])
        · intro hall
          have h0 : ∀ m ∈ methodsOrder, accepts (env a m) = false := by
            intro m _
            have := hall 0 (Nat.succ_pos k) m
            simpa using this
          have := (tryMethods_none_iff env a methodsOrder st ins).mpr h0
          rw [htry] at this
          simp at this
      | none =>
        dsimp only
        rw [ih (a + 1) st' ins']
        constructor
        · intro hall j hj m
          cases j with
          | zero =>
            have hnone : (tryMethods env a methodsOrder st ins).1 = none := by
              rw [htry]
            have := (tryMethods_none_iff env a methodsOrder st ins).mp hnone
            simpa using this m (mem_methodsOrder m)
          | succ j =>
            have := hall j (by omega) m
            have harith : a + 1 + j = a + (j + 1) := by omega
            rw [harith] at this
            exact this
        · intro hall j hj m
          have := hall (j + 1) (by omega) m
          have harith : a + (j + 1) = a + 1 + j := by omega
          rw [harith] at this
          exact this

theorem fetchLoop_success_or_fail (env : Nat → Method → FetchOutcome) (k : Nat) :
    ∀ (a : Nat) (st : ProxyStats) (ins : Instr),
      (fetchLoop env k a st ins).1.success = true ∨
        (fetchLoop env k a st ins).1 = failRecord := by
  induction k with
  | zero =>
    intro a st ins
    exact Or.inr rfl
  | succ k ih =>
    intro a st ins
    simp only [fetchLoop]
    cases htry : tryMethods env a methodsOrder st ins with
    | mk r rest =>
      obtain ⟨st', ins'⟩ := rest
      cases r with
      | some result =>
        dsimp only
        exact Or.inl (tryMethods_some_success env a methodsOrder st ins result
          (by rw [htry]))
      | none =>
        dsimp only
        exact ih (a + 1) st' ins'

/-- C10 (confirmed).  Fetch totality at the public interface: for every
outcome oracle (covering every strategy error, the `IndexError` raised by
endpoint selection over a fully-blacklisted pool included — such a selection
yields the `exn` outcome, third conjunct) `fetch_with_rotation` returns a
record with a boolean `success` key, and that record equals the failure
record with its error message exactly when no strategy attempt on any round
is accepted. -/
theorem fetch_totality (env : Nat → Method → FetchOutcome) (n : Nat)
    (st : ProxyStats) (ins : Instr)
    (pool bl : List String) (idx : Nat) (net : String → FetchOutcome)
    (hbl : availableEndpoints pool bl = []) :
    ((fetchWithRotation env n st ins).1.success = true ∨
      (fetchWithRotation env n st ins).1 = failRecord) ∧
    ((fetchWithRotation env n st ins).1 = failRecord ↔
      ∀ a, a < n → ∀ m : Method, accepts (env a m) = false) ∧
    (endpointMethodOutcome pool bl idx net).1 = .exn := by
  refine ⟨fetchLoop_success_or_fail env n 0 st ins, ?_, ?_⟩
  · have := fetchLoop_fail_iff env n 0 st ins
    simpa [fetchWithRotation] using this
  · simp [endpointMethodOutcome, selectEndpoint, hbl]

/-- C10 witness: at an oracle where every strategy raises on both rounds,
the chain returns the failure record; the blacklisted singleton pool's
selection raises into the chain as an outcome it absorbs. -/
theorem fetch_totality_witness :
    ((fetchWithRotation envAllFail 2 {} {}).1.success = true ∨
      (fetchWithRotation envAllFail 2 {} {}).1 = failRecord) ∧
    ((fetchWithRotation envAllFail 2 {} {}).1 = failRecord ↔
      ∀ a, a < 2 → ∀ m : Method, accepts (envAllFail a m) = false) ∧
    (endpointMethodOutcome ["p"] ["p"] 0 (fun _ => .exn)).1 = .exn :=
  fetch_totality envAllFail 2 {} {} ["p"] ["p"] 0 (fun _ => .exn) (by decide)

theorem blStep_mem (bl : List String) (ev : BLEvent) (e : String)
    (hev : ev ≠ .reset) (h : e ∈ bl) : e ∈ blStep bl ev := by
  cases ev with
  | fail e' =>
    simp only [blStep]
    by_cases hc : bl.contains e'
    · rw [if_pos hc]
      exact h
    · rw [if_neg hc]
      exact List.mem_append.mpr (Or.inl h)
  | reset => exact absurd rfl hev

theorem foldl_blStep_mem (events : List BLEvent) :
    ∀ (bl : List String) (e : String), e ∈ bl → BLEvent.reset ∉ events →
      e ∈ events.foldl blStep bl := by
  induction events with
  | nil =>
    intro bl e h _
    exact h
  | cons ev evs ih =>
    intro bl e h hres
    rw [List.foldl_cons]
    refine ih _ e (blStep_mem bl ev e ?_ h) ?_
    · intro hrfl
      exact hres (hrfl ▸ List.mem_cons_self ev evs)
    · intro hmem
      exact hres (List.mem_cons_of_mem ev hmem)

/-- C6 (confirmed).  Blacklist behaviour: a failure puts the endpoint into
the blacklist; as long as no `reset_blacklist` event occurs the endpoint
stays blacklisted through any sequence of further failures, and endpoint
selection — the filtered `random.choice` every endpoint-based strategy
performs — can never return it, whatever the random draw; the only
transition that removes entries is the explicit reset, which clears the
whole set. -/
theorem blacklist_persistence (pool bl bl' : List String)
    (events : List BLEvent) (e : String) (idx : Nat)
    (h1 : e ∈ bl) (h2 : BLEvent.reset ∉ events) :
    e ∈ events.foldl blStep bl ∧
    selectEndpoint pool (events.foldl blStep bl) idx ≠ some e ∧
    e ∈ blStep bl' (.fail e) ∧
    blStep bl' .reset = [] := by
  have hmem := foldl_blStep_mem events bl e h1 h2
  refine ⟨hmem, ?_, ?_, rfl⟩
  · intro hsel
    have hin : e ∈ availableEndpoints pool (events.foldl blStep bl) :=
      List.get?_mem hsel
    rw [availableEndpoints, List.mem_filter] at hin
    have : (events.foldl blStep bl).contains e = true := by
      simpa using hmem
    rw [this] at hin
    simp at hin
  · simp only [blStep]
    by_cases hc : bl'.contains e
    · rw [if_pos hc]
      simpa using hc
    · rw [if_neg hc]
      exact List.mem_append.mpr (Or.inr (List.mem_singleton.mpr rfl))

/-- C6 witness: the Shecan primary resolver is blacklisted; after a further
unrelated failure (no reset), DNS-endpoint selection still never returns
it. -/
theorem blacklist_persistence_witness :
    "178.22.122.100" ∈ [BLEvent.fail "185.51.200.2"].foldl blStep ["178.22.122.100"] ∧
    selectEndpoint iranian_dns_pool
      ([BLEvent.fail "185.51.200.2"].foldl blStep ["178.22.122.100"]) 0 ≠
      some "178.22.122.100" ∧
    "178.22.122.100" ∈ blStep [] (.fail "178.22.122.100") ∧
    blStep [] BLEvent.reset = [] :=
  blacklist_persistence iranian_dns_pool ["178.22.122.100"] []
    [BLEvent.fail "185.51.200.2"] "178.22.122.100" 0 (by decide) (by decide)

theorem truncateContent_length (c : String) : (truncateContent c).length ≤ 503 := by
  unfold truncateContent
  by_cases h : c.length > 500
  · rw [if_pos h, String.length_append]
    have h1 : (String.mk (c.data.take 500)).length = (c.data.take 500).length := rfl
    have h2 : (c.data.take 500).length ≤ 500 := by
      rw [List.length_take]
      omega
    have h3 : ("..." : String).length = 3 := rfl
    omega
  · rw [if_neg h]
    omega

theorem whereHolds_fts (fts : Document → Bool) (q : String)
    (src cat ds de : Option String) (d : Document) (hq : q ≠ "")
    (h : whereHolds (whereConditions fts q src cat ds de) d = true) :
    fts d = true := by
  unfold whereConditions at h
  rw [if_pos hq] at h
  unfold whereHolds at h
  simp only [List.all_append, List.all_cons, List.all_nil, Bool.and_eq_true] at h
  exact h.1.1.1.1.1

theorem cacheLookupLive_real_none (cache : List (String × CacheEntry))
    (key nowStr : String)
    (h : ∀ kv ∈ cache, ∃ x, kv.2.expires_at = SVal.r x) :
    cacheLookupLive cache key nowStr = none := by
  unfold cacheLookupLive
  have hfind : cache.find?
      (fun kv => kv.1 = key ∧ svalGt kv.2.expires_at (.t nowStr)) = none := by
    rw [List.find?_eq_none]
    intro kv hkv
    obtain ⟨x, hx⟩ := h kv hkv
    simp [hx, svalGt]
  rw [hfind]

theorem searchStatementRankError_iff (q sort : String) :
    searchStatementRankError q sort = true ↔ q ≠ "" := by
  constructor
  · intro h hq
    subst hq
    unfold searchStatementRankError searchRankSelectItem orderClauseSql at h
    simp only [ne_eq, not_true_eq_false, if_false] at h
    split_ifs at h <;> simp_all [documentsColumns]
  · intro hq
    unfold searchStatementRankError searchRankSelectItem
    rw [if_pos hq]
    simp [documentsColumns]

theorem searchDocuments_miss_fst (md5 : String → String) (fts : Document → Bool)
    (rank : Document → Int) (st : DBState) (q : String)
    (src cat ds de : Option String) (sort : String) (page limit : Nat)
    (nowTs : Int) (nowStr : String)
    (h : cacheLookupLive st.cache
      (md5 (cacheKeyString q src cat ds de sort page limit)) nowStr = none) :
    (searchDocuments md5 fts rank st q src cat ds de sort page limit
        nowTs nowStr).1 =
      searchCore fts rank st.docs q src cat ds de sort page limit := by
  simp only [searchDocuments]
  rw [h]

/-- C3 (code bug).  Full-text search never runs: on every store state whose
cache holds only REAL `expires_at` values (every entry the program writes,
hence every reachable state), a search with a non-empty query misses the
cache and reaches the page statement, whose SELECT list is the item `rank as
search_rank` while `FROM documents d` offers no column `rank` (third
conjunct), so SQLite raises `OperationalError: no such column: rank` and no
ranked page is ever returned.  The empty-query statement prepares, and there
the checked search returns exactly the computed page (last conjunct). -/
theorem search_nonempty_query_raises (md5 : String → String)
    (fts : Document → Bool) (rank : Document → Int) (st : DBState)
    (q : String) (src cat ds de : Option String) (sort : String)
    (page limit : Nat) (nowTs : Int) (nowStr : String)
    (hq : q ≠ "")
    (hcache : ∀ kv ∈ st.cache, ∃ x, kv.2.expires_at = SVal.r x) :
    searchDocumentsChecked md5 fts rank st q src cat ds de sort page limit
      nowTs nowStr = .error "no such column: rank" ∧
    searchRankSelectItem q = "rank" ∧
    documentsColumns.contains "rank" = false ∧
    (searchDocumentsChecked md5 fts rank st "" src cat ds de sort page limit
        nowTs nowStr).map Prod.fst =
      .ok (searchCore fts rank st.docs "" src cat ds de sort page limit) := by
  have hmiss : ∀ qq : String, cacheLookupLive st.cache
      (md5 (cacheKeyString qq src cat ds de sort page limit)) nowStr = none :=
    fun qq => cacheLookupLive_real_none st.cache _ nowStr hcache
  refine ⟨?_, ?_, by decide, ?_⟩
  · simp only [searchDocumentsChecked]
    rw [hmiss q, if_pos ((searchStatementRankError_iff q sort).mpr hq)]
  · unfold searchRankSelectItem
    rw [if_pos hq]
  · simp only [searchDocumentsChecked]
    rw [hmiss "", if_neg (fun h => (searchStatementRankError_iff "" sort).mp h rfl)]
    rw [show ∀ r : SearchResult × DBState,
          (Except.ok r : Except String (SearchResult × DBState)).map Prod.fst =
            .ok r.1 from fun r => rfl]
    rw [searchDocuments_miss_fst md5 fts rank st "" src cat ds de sort page limit
      nowTs nowStr (hmiss "")]

/-- C3 witness: the raising theorem at a concrete store — the query `"law"`
with sort `"title"` errors, while the empty query returns its page. -/
theorem search_nonempty_query_raises_witness :
    searchDocumentsChecked id ftsAll rankFix stAB "law" none none none none
      "title" 1 10 1000 "2026-01-01 00:00:00" = .error "no such column: rank" ∧
    searchRankSelectItem "law" = "rank" ∧
    documentsColumns.contains "rank" = false ∧
    (searchDocumentsChecked id ftsAll rankFix stAB "" none none none none
        "title" 1 10 1000 "2026-01-01 00:00:00").map Prod.fst =
      .ok (searchCore ftsAll rankFix stAB.docs "" none none none none
        "title" 1 10) :=
  search_nonempty_query_raises id ftsAll rankFix stAB "law" none none none none
    "title" 1 10 1000 "2026-01-01 00:00:00" (by decide)
    (by intro kv hkv; simp [stAB] at hkv)

/-- C8 counterexample.  At the non-empty query `"law"` over a concrete
two-document store, all three searches the claim speaks of — page 1 and
page 2 at limit 10, and page 1 at limit 20 — raise `OperationalError: no
such column: rank` instead of returning result sets, so at that input there
are no pages to be disjoint or to concatenate: the claim, quantified over
every fixed query, fails. -/
theorem pagination_nonempty_raises_cx :
    searchDocumentsChecked id ftsAll rankFix stAB "law" none none none none
      "relevance" 1 10 1000 "2026-01-01 00:00:00" =
      .error "no such column: rank" ∧
    searchDocumentsChecked id ftsAll rankFix stAB "law" none none none none
      "relevance" 2 10 1000 "2026-01-01 00:00:00" =
      .error "no such column: rank" ∧
    searchDocumentsChecked id ftsAll rankFix stAB "law" none none none none
      "relevance" 1 20 1000 "2026-01-01 00:00:00" =
      .error "no such column: rank" :=
  ⟨rfl, rfl, rfl⟩

/-- C8 (corrected).  Pagination stability, amended: over a fixed stored
dataset (pairwise-distinct ids, the `documents` PRIMARY KEY invariant) with
fixed filters and sort, the empty query — the only query text whose page
statement prepares — paginates stably: page 1 and page 2 at limit 10 are
disjoint and concatenate, in the declared sort order, to page 1 at limit 20;
every result reports `has_more = true` exactly when `page * limit < total`;
the checked search returns exactly these computed pages; and every
non-empty-query search raises `OperationalError: no such column: rank`
instead of returning a result set. -/
theorem pagination_stability_amended (md5 : String → String)
    (fts : Document → Bool) (rank : Document → Int) (st : DBState)
    (q : String) (src cat ds de : Option String) (sort : String)
    (page limit : Nat) (nowTs : Int) (nowStr : String)
    (hnd : (st.docs.map Document.id).Nodup) (hq : q ≠ "")
    (hcache : ∀ kv ∈ st.cache, ∃ x, kv.2.expires_at = SVal.r x) :
    (searchCore fts rank st.docs "" src cat ds de sort 1 10).data ++
      (searchCore fts rank st.docs "" src cat ds de sort 2 10).data =
      (searchCore fts rank st.docs "" src cat ds de sort 1 20).data ∧
    (searchCore fts rank st.docs "" src cat ds de sort 1 10).data.Disjoint
      (searchCore fts rank st.docs "" src cat ds de sort 2 10).data ∧
    ((searchCore fts rank st.docs "" src cat ds de sort page limit).has_more =
        true ↔
      page * limit <
        (searchCore fts rank st.docs "" src cat ds de sort page limit).total) ∧
    (searchDocumentsChecked md5 fts rank st "" src cat ds de sort page limit
        nowTs nowStr).map Prod.fst =
      .ok (searchCore fts rank st.docs "" src cat ds de sort page limit) ∧
    searchDocumentsChecked md5 fts rank st q src cat ds de sort page limit
      nowTs nowStr = .error "no such column: rank" := by
  have hmiss : ∀ qq : String, cacheLookupLive st.cache
      (md5 (cacheKeyString qq src cat ds de sort page limit)) nowStr = none :=
    fun qq => cacheLookupLive_real_none st.cache _ nowStr hcache
  have hunion :
      (searchCore fts rank st.docs "" src cat ds de sort 1 10).data ++
        (searchCore fts rank st.docs "" src cat ds de sort 2 10).data =
        (searchCore fts rank st.docs "" src cat ds de sort 1 20).data := by
    unfold searchCore
    dsimp only
    rw [← List.map_append]
    norm_num
    rw [show (20 : Nat) = 10 + 10 from rfl, List.take_add]
  refine ⟨hunion, ?_, ?_, ?_, ?_⟩
  · have hfilter : ((st.docs.filter
        (whereHolds (whereConditions fts "" src cat ds de))).map Document.id).Nodup :=
      hnd.sublist (List.Sublist.map Document.id (List.filter_sublist st.docs))
    have hsorted : ((sortByLe (orderLe rank sort "")
        (st.docs.filter (whereHolds (whereConditions fts "" src cat ds de)))).map
          Document.id).Nodup :=
      (((sortByLe_perm (orderLe rank sort "") _).map Document.id).nodup_iff).mpr
        hfilter
    have htake : (((sortByLe (orderLe rank sort "")
        (st.docs.filter (whereHolds (whereConditions fts "" src cat ds de)))).take
          20).map Document.id).Nodup :=
      hsorted.sublist (List.Sublist.map Document.id (List.take_sublist 20 _))
    have hdata20 : ((searchCore fts rank st.docs "" src cat ds de sort 1 20).data.map
        SearchRow.id).Nodup := by
      unfold searchCore
      dsimp only
      rw [List.map_map]
      norm_num
      rw [show (SearchRow.id ∘ previewRow rank "") = Document.id from
            funext fun d => rfl,
          ← List.map_take]
      exact htake
    have hnodup20 : (searchCore fts rank st.docs "" src cat ds de sort 1 20).data.Nodup :=
      List.Nodup.of_map SearchRow.id hdata20
    rw [← hunion] at hnodup20
    exact (List.nodup_append.mp hnodup20).2.2
  · simp [searchCore, decide_eq_true_iff]
  · simp only [searchDocumentsChecked]
    rw [hmiss "", if_neg (fun h => (searchStatementRankError_iff "" sort).mp h rfl)]
    rw [show ∀ r : SearchResult × DBState,
          (Except.ok r : Except String (SearchResult × DBState)).map Prod.fst =
            .ok r.1 from fun r => rfl]
    rw [searchDocuments_miss_fst md5 fts rank st "" src cat ds de sort page limit
      nowTs nowStr (hmiss "")]
  · simp only [searchDocumentsChecked]
    rw [hmiss q, if_pos ((searchStatementRankError_iff q sort).mpr hq)]

/-- C8 witness: the amended theorem at the two-document fixture — the empty
query's pages concatenate and are disjoint, `has_more` read off at
`page = 3`, `limit = 1`, the checked search agrees, and the query `"law"`
raises. -/
theorem pagination_stability_amended_witness :
    (searchCore ftsAll rankFix stAB.docs "" none none none none
        "relevance" 1 10).data ++
      (searchCore ftsAll rankFix stAB.docs "" none none none none
        "relevance" 2 10).data =
      (searchCore ftsAll rankFix stAB.docs "" none none none none
        "relevance" 1 20).data ∧
    (searchCore ftsAll rankFix stAB.docs "" none none none none
        "relevance" 1 10).data.Disjoint
      (searchCore ftsAll rankFix stAB.docs "" none none none none
        "relevance" 2 10).data ∧
    ((searchCore ftsAll rankFix stAB.docs "" none none none none
        "relevance" 3 1).has_more = true ↔
      3 * 1 <
        (searchCore ftsAll rankFix stAB.docs "" none none none none
          "relevance" 3 1).total) ∧
    (searchDocumentsChecked id ftsAll rankFix stAB "" none none none none
        "relevance" 3 1 1000 "2026-01-01 00:00:00").map Prod.fst =
      .ok (searchCore ftsAll rankFix stAB.docs "" none none none none
        "relevance" 3 1) ∧
    searchDocumentsChecked id ftsAll rankFix stAB "law" none none none none
      "relevance" 3 1 1000 "2026-01-01 00:00:00" =
      .error "no such column: rank" :=
  pagination_stability_amended id ftsAll rankFix stAB "law" none none none none
    "relevance" 3 1 1000 "2026-01-01 00:00:00" (by decide) (by decide)
    (by intro kv hkv; simp [stAB] at hkv)

end AIHoghoghi
